import Mathlib

/-!
Shallow embedding of the TaskManagerApi frontend auth client:
`src/frontend/src/services/api.js` (axios instance with request/response
interceptors), `AuthContext` (login / register / logout / mount effect),
`Login.jsx` (field validation and submit error mapping), `Register.jsx`
(field validation and submit) and `ProtectedRoute`.

JavaScript strings are Lean `String`s; `localStorage` is an association
list; `console.log` output is a list of `LogItem`s; axios outcomes are
`Except` values supplied as oracles.  JS truthiness of a
`localStorage.getItem` result (string or null) is `jsTruthy`: `null` and
the empty string are falsy.
-/

namespace TaskManager

/-- Browser `localStorage`: an association list from keys to string values. -/
abbrev Storage := List (String × String)

/-- `localStorage.getItem(k)`: the stored string, or `none` for JS `null`. -/
def getItem (s : Storage) (k : String) : Option String :=
  (s.find? (fun p => p.1 == k)).map (·.2)

/-- `localStorage.setItem(k, v)`: insert or overwrite the entry for `k`. -/
def setItem (s : Storage) (k v : String) : Storage :=
  (k, v) :: s.filter (fun p => p.1 != k)

/-- `localStorage.removeItem(k)`. -/
def removeItem (s : Storage) (k : String) : Storage :=
  s.filter (fun p => p.1 != k)

/-- JS truthiness of a `getItem` result: `null` and `""` are falsy. -/
def jsTruthy : Option String → Bool
  | none => false
  | some s => s != ""

theorem getItem_setItem_self (s : Storage) (k v : String) :
    getItem (setItem s k v) k = some v := by
  simp [getItem, setItem, List.find?]

theorem getItem_removeItem_self (s : Storage) (k : String) :
    getItem (removeItem s k) k = none := by
  have hfind : (removeItem s k).find? (fun p => p.1 == k) = none := by
    rw [List.find?_eq_none]
    intro x hx
    have hmem := List.of_mem_filter hx
    simpa using hmem
  simp [getItem, hfind]

theorem getItem_removeItem_other (s : Storage) (k k' : String) (h : k' ≠ k) :
    getItem (removeItem s k) k' = getItem s k' := by
  induction s with
  | nil => rfl
  | cons p t ih =>
    by_cases hp : p.1 = k
    · have h1 : (p.1 != k) = false := by simp [hp]
      have h2 : (p.1 == k') = false := by
        have hne : p.1 ≠ k' := fun hc => h (hc ▸ hp)
        simp [hne]
      simp only [getItem, removeItem, List.filter_cons, h1, Bool.false_eq_true,
        if_false, List.find?_cons, h2] at ih ⊢
      exact ih
    · have h1 : (p.1 != k) = true := by simp [hp]
      by_cases hq : p.1 = k'
      · have h2 : (p.1 == k') = true := by simp [hq]
        simp only [getItem, removeItem, List.filter_cons, h1, if_true,
          List.find?_cons, h2]
      · have h2 : (p.1 == k') = false := by simp [hq]
        simp only [getItem, removeItem, List.filter_cons, h1, if_true,
          List.find?_cons, h2] at ih ⊢
        exact ih

/-- HTTP header list; JS header-object writes overwrite existing keys. -/
abbrev Headers := List (String × String)

/-- Read a header value. -/
def getHeader (hs : Headers) (k : String) : Option String :=
  (hs.find? (fun p => p.1 == k)).map (·.2)

/-- `config.headers[k] = v`: set or overwrite a header. -/
def setHeader (hs : Headers) (k v : String) : Headers :=
  (k, v) :: hs.filter (fun p => p.1 != k)

theorem getHeader_setHeader_self (hs : Headers) (k v : String) :
    getHeader (setHeader hs k v) k = some v := by
  simp [getHeader, setHeader, List.find?]

/-- Request payloads sent through the axios client: a JSON object body,
a `URLSearchParams` body (the login form), a `FormData` body, or nothing. -/
inductive ReqData
  | json (fields : List (String × String))
  | urlSearchParams (fields : List (String × String))
  | formData (fields : List (String × String))
  | empty
  deriving Repr, DecidableEq

/-- `typeof config.data` as JS reports it. -/
def jsTypeof : ReqData → String
  | ReqData.empty => "undefined"
  | _ => "object"

/-- Success-response body: the login endpoint wraps the token as
`{"access_token": token}`; other bodies have no such field. -/
structure RespData where
  access_token : Option String
  deriving Repr, DecidableEq

/-- An axios success response. -/
structure Response where
  status : Nat
  data : Option RespData
  deriving Repr, DecidableEq

/-- `data.detail` of an error body: an array of `{msg}` items, a string,
or absent. -/
inductive Detail
  | arr (msgs : List String)
  | str (s : String)
  | absent
  deriving Repr, DecidableEq

/-- Error-response body. -/
structure ErrData where
  detail : Detail
  deriving Repr, DecidableEq

/-- `error.response` of an axios error. -/
structure ErrResponse where
  status : Nat
  data : ErrData
  deriving Repr, DecidableEq

/-- An axios error: `response` present when the server answered;
`requestMade` distinguishes "no response received" from setup errors. -/
structure ApiError where
  response : Option ErrResponse
  requestMade : Bool
  message : String
  deriving Repr, DecidableEq

/-- One `console.log` / `console.error` emission. -/
inductive LogItem
  | line (s : String)
  | reqHeaders (hs : List (String × String))
  | reqData (d : ReqData)
  | respHeaders (status : Nat)
  | respData (d : Option RespData)
  | errData (d : ErrData)
  deriving Repr, DecidableEq

/-- An axios request config as the interceptors see it. -/
structure RequestConfig where
  url : String
  method : String
  headers : Headers
  data : ReqData
  deriving Repr, DecidableEq

/-- Default headers from `axios.create` in api.js. -/
def baseHeaders : Headers := [("Content-Type", "application/json")]

/-- The request-data part of the logging request interceptor: the
`config.data instanceof FormData` branch logs each entry as
`pair[0] + ': ' + pair[1]`; any other data is logged wholesale. -/
def dataLogEntries : ReqData → List LogItem
  | ReqData.formData fields =>
      LogItem.line "FormData contents:" ::
        fields.map (fun pr => LogItem.line (pr.1 ++ ": " ++ pr.2))
  | d => [LogItem.reqData d]

/-- `if (token) config.headers.Authorization = `Bearer ${token}`` — shared
body of both request interceptors in api.js. -/
def addAuthHeader (s : Storage) (cfg : RequestConfig) : RequestConfig :=
  if jsTruthy (getItem s "token") then
    match getItem s "token" with
    | some t => { cfg with headers := setHeader cfg.headers "Authorization" ("Bearer " ++ t) }
    | none => cfg
  else cfg

/-- The second request interceptor of api.js (lines 70–81): adds the
bearer token, no logging. -/
def authRequestInterceptor (s : Storage) (cfg : RequestConfig) : RequestConfig :=
  addAuthHeader s cfg

/-- The first request interceptor of api.js (lines 13–40): logs URL,
method, headers and data, then adds the bearer token. -/
def loggingRequestInterceptor (s : Storage) (cfg : RequestConfig) :
    RequestConfig × List LogItem :=
  let log : List LogItem :=
    [LogItem.line "=== API Request Interceptor ===",
     LogItem.line ("Request URL: " ++ cfg.url),
     LogItem.line ("Request Method: " ++ cfg.method),
     LogItem.reqHeaders cfg.headers,
     LogItem.line ("Request Data Type: " ++ jsTypeof cfg.data)]
    ++ dataLogEntries cfg.data
  let log :=
    log ++ (if jsTruthy (getItem s "token")
            then [LogItem.line "Added Authorization header"] else [])
  (addAuthHeader s cfg, log)

/-- The full request-interceptor chain.  axios runs request interceptors
in reverse registration order (`InterceptorManager` unshifts them onto
the dispatch chain), so the auth-only interceptor registered second runs
first and the logging interceptor registered first runs second — hence
the logged headers already contain the Authorization header. -/
def runRequestInterceptors (s : Storage) (cfg : RequestConfig) :
    RequestConfig × List LogItem :=
  loggingRequestInterceptor s (authRequestInterceptor s cfg)

/-- The first response interceptor's fulfilled handler (api.js lines
42–49): logs status, headers and the full response data, then returns the
response unchanged; the second fulfilled handler is the identity.
Response interceptors run in registration order. -/
def responseSuccessLog (r : Response) : List LogItem :=
  [LogItem.line "=== API Response Interceptor ===",
   LogItem.line ("Response Status: " ++ toString r.status),
   LogItem.respHeaders r.status,
   LogItem.respData r.data]

/-- The `console.error` output of the first response interceptor's
rejected handler (api.js lines 50–60). -/
def responseErrorLog (e : ApiError) : List LogItem :=
  LogItem.line "=== API Response Error ===" ::
    (match e.response with
     | some r =>
        [LogItem.line ("Error Status: " ++ toString r.status),
         LogItem.respHeaders r.status,
         LogItem.errData r.data]
     | none =>
        if e.requestMade then [LogItem.line "No response received"]
        else [LogItem.line ("Error setting up request: " ++ e.message)])

/-- The 401 branch shared by both response interceptors' rejected
handlers: on status 401, remove the stored token and redirect to /login. -/
def handle401 (s : Storage) (redirect : Option String) (e : ApiError) :
    Storage × Option String :=
  if e.response.map (·.status) = some 401 then
    (removeItem s "token", some "/login")
  else (s, redirect)

/-- Outcome of running an error through both response interceptors. -/
structure ErrorChainOut where
  storage : Storage
  redirect : Option String
  log : List LogItem
  result : Except ApiError Response
  deriving Repr

/-- Both response interceptors' rejected handlers run in registration
order; each checks `error.response?.status === 401`, and each rejects
with the same error. -/
def responseErrorChain (s : Storage) (e : ApiError) : ErrorChainOut :=
  let log := responseErrorLog e
  let (s1, r1) := handle401 s none e
  let (s2, r2) := handle401 s1 r1 e
  { storage := s2, redirect := r2, log := log, result := Except.error e }

/-- The `{ token }` object held in the AuthContext `user` state. -/
structure UserState where
  token : String
  deriving Repr, DecidableEq

/-- Client-side state the AuthContext operations touch: `localStorage`,
the React `user` state, and the list of request URLs posted so far (to
state frame properties about network activity). -/
structure ClientState where
  storage : Storage
  user : Option UserState
  requests : List String
  deriving Repr, DecidableEq

/-- Errors a login/register call can surface to its caller: a rethrown
axios error, or the `Error('Invalid login response format')` thrown when
`response.data` or `response.data.access_token` is falsy. -/
inductive ClientError
  | api (e : ApiError)
  | invalidFormat
  deriving Repr, DecidableEq

/-- Result of `login` / `register`: the value returned or error thrown,
the client state afterwards, whether a login POST happened, and the
console output. -/
structure CallOut where
  result : Except ClientError Bool
  state : ClientState
  log : List LogItem
  deriving Repr

/-- The URLSearchParams body built by `login`. -/
def loginFormPairs (u p : String) : List (String × String) :=
  [("username", u), ("password", p), ("grant_type", "password")]

/-- The console output of `AuthContext.login` up to sending the request:
`=== Login Flow Start ===`, `Creating FormData...`, then the
`for (let pair of formData.entries()) console.log(pair[0] + ': ' + pair[1])`
loop — which prints the plaintext password — then the target URL. -/
def loginPreLog (u p : String) : List LogItem :=
  [LogItem.line "=== Login Flow Start ===",
   LogItem.line "Creating FormData...",
   LogItem.line "FormData contents:"]
  ++ (loginFormPairs u p).map (fun pr => LogItem.line (pr.1 ++ ": " ++ pr.2))
  ++ [LogItem.line "Sending request to: /login"]

/-- The request config `login` hands to `api.post('/login', formData, ...)`:
instance defaults with the per-call `Content-Type` override and the
URLSearchParams body. -/
def loginRequestConfig (u p : String) : RequestConfig :=
  { url := "/login", method := "post",
    headers := setHeader baseHeaders "Content-Type" "application/x-www-form-urlencoded",
    data := ReqData.urlSearchParams (loginFormPairs u p) }

/-- `AuthContext.login(username, password)`.  The axios outcome of the
POST is an oracle.  On a fulfilled response the code checks
`!response.data || !response.data.access_token` (absent — and, by JS
falsiness, the empty string — fail the check) and throws
`Invalid login response format`; otherwise it stores the token under
`'token'`, sets `user` to `{ token }` and returns `true`.  Every path
through the `catch` rethrows, so errors propagate with state untouched
apart from the POST itself having been issued. -/
def login (st : ClientState) (u p : String)
    (outcome : Except ApiError Response) : CallOut :=
  let cfg := loginRequestConfig u p
  let (_sent, reqLog) := runRequestInterceptors st.storage cfg
  let st1 : ClientState := { st with requests := st.requests ++ [cfg.url] }
  let preLog := loginPreLog u p ++ reqLog
  match outcome with
  | Except.error e =>
      { result := Except.error (ClientError.api e), state := st1,
        log := preLog ++ responseErrorLog e ++ [LogItem.line "=== Login Flow Error ==="] }
  | Except.ok resp =>
      let respLog := responseSuccessLog resp
      match resp.data with
      | none =>
          { result := Except.error ClientError.invalidFormat, state := st1,
            log := preLog ++ respLog ++ [LogItem.respData resp.data] }
      | some d =>
          match d.access_token with
          | none =>
              { result := Except.error ClientError.invalidFormat, state := st1,
                log := preLog ++ respLog ++ [LogItem.respData resp.data] }
          | some tok =>
              if tok = "" then
                { result := Except.error ClientError.invalidFormat, state := st1,
                  log := preLog ++ respLog ++ [LogItem.respData resp.data] }
              else
                { result := Except.ok true,
                  state := { st1 with
                             storage := setItem st1.storage "token" tok,
                             user := some ⟨tok⟩ },
                  log := preLog ++ respLog
                         ++ [LogItem.line ("Access token received, length: "
                              ++ toString tok.length),
                             LogItem.line "=== Login Flow Complete ==="] }

/-- Result of `register`, also recording whether `login` was called. -/
structure RegisterOut where
  result : Except ClientError Bool
  state : ClientState
  loginAttempted : Bool
  deriving Repr

/-- `AuthContext.register(username, password)`: POSTs `/register`; if that
throws, the outer catch rethrows and `login` is never called; on a
fulfilled response it calls `login(username, password)` and returns its
result (the inner catch rethrows login errors, the outer catch rethrows
again). -/
def register (st : ClientState) (u p : String)
    (regOutcome : Except ApiError Response)
    (loginOutcome : Except ApiError Response) : RegisterOut :=
  let st1 : ClientState := { st with requests := st.requests ++ ["/register"] }
  match regOutcome with
  | Except.error e =>
      { result := Except.error (ClientError.api e), state := st1,
        loginAttempted := false }
  | Except.ok _ =>
      let lo := login st1 u p loginOutcome
      { result := lo.result, state := lo.state, loginAttempted := true }

/-- `AuthContext.logout`: `localStorage.removeItem('token'); setUser(null)`.
No request is issued and nothing else is touched. -/
def logout (st : ClientState) : ClientState :=
  { st with storage := removeItem st.storage "token", user := none }

/-- The AuthProvider mount effect: `const token = localStorage.getItem('token');
if (token) setUser({ token })` — no backend verification. -/
def mountUser (s : Storage) : Option UserState :=
  match getItem s "token" with
  | some t => if t = "" then none else some ⟨t⟩
  | none => none

/-- What `ProtectedRoute` renders. -/
inductive RouteView
  | loadingView
  | redirectLogin
  | content
  deriving Repr, DecidableEq

/-- `ProtectedRoute`: loading indicator while loading, `<Navigate to="/login">`
when `user` is null, otherwise the protected children. -/
def protectedRoute (loading : Bool) (user : Option UserState) : RouteView :=
  if loading then RouteView.loadingView
  else match user with
       | none => RouteView.redirectLogin
       | some _ => RouteView.content

/-- The regex character class `[a-zA-Z0-9_-]` of `validateUsername`:
ASCII letters (`Char.isAlpha` is exactly `a`–`z`, `A`–`Z`), ASCII digits,
underscore, hyphen. -/
def isUsernameChar (c : Char) : Bool :=
  c.isAlpha || c.isDigit || c == '_' || c == '-'

/-- `validateUsername` from Login.jsx (shared verbatim by Register.jsx):
returns the error message, or `""` when the username is accepted.  The
`!username` truthiness check is the empty-string test. -/
def validateUsername (username : String) : String :=
  if username = "" then "Username is required"
  else if username.length < 3 then "Username must be at least 3 characters long"
  else if !(username.toList.all isUsernameChar) then
    "Username must contain only letters, numbers, underscores, and hyphens"
  else ""

/-- `validatePassword` from Login.jsx (shared verbatim by Register.jsx):
`/[A-Z]/`, `/[a-z]/`, `/[0-9]/` are ASCII class tests. -/
def validatePassword (password : String) : String :=
  if password = "" then "Password is required"
  else if password.length < 8 then "Password must be at least 8 characters long"
  else if !(password.toList.any Char.isUpper) then
    "Password must contain at least one uppercase letter"
  else if !(password.toList.any Char.isLower) then
    "Password must contain at least one lowercase letter"
  else if !(password.toList.any Char.isDigit) then
    "Password must contain at least one number"
  else ""

/-- What a submit handler does before any network activity. -/
inductive SubmitAction
  | rejected (uErr pErr cErr : String)
  | sendLogin (u p : String)
  | sendRegister (u p : String)
  deriving Repr, DecidableEq

/-- The validation gate of `Login.jsx handleSubmit`: with any field error
(non-empty message is truthy) it sets the errors and returns without
calling `login`. -/
def loginHandleSubmit (u p : String) : SubmitAction :=
  let ue := validateUsername u
  let pe := validatePassword p
  if ue ≠ "" ∨ pe ≠ "" then SubmitAction.rejected ue pe ""
  else SubmitAction.sendLogin u p

/-- The validation gate of `Register.jsx handleSubmit`: also checks the
confirm-password field before calling `register`. -/
def registerHandleSubmit (u p confirm : String) : SubmitAction :=
  let ue := validateUsername u
  let pe := validatePassword p
  let ce := if p ≠ confirm then "Passwords do not match" else ""
  if ue ≠ "" ∨ pe ≠ "" ∨ ce ≠ "" then SubmitAction.rejected ue pe ce
  else SubmitAction.sendRegister u p

/-- The error message `Login.jsx handleSubmit` displays for a failed
login: initialized to `Login failed. Please try again.`, then overwritten
by the `switch (status)` when `error.response` exists.  In the 422 case an
array `detail` is joined with `', '`; a truthy string `detail` is shown;
otherwise the initial message stands. -/
def loginErrorMessage (e : ApiError) : String :=
  match e.response with
  | none => "Login failed. Please try again."
  | some r =>
      if r.status = 401 then "Incorrect username or password"
      else if r.status = 422 then
        match r.data.detail with
        | Detail.arr msgs => String.intercalate ", " msgs
        | Detail.str s => if s = "" then "Login failed. Please try again." else s
        | Detail.absent => "Login failed. Please try again."
      else if r.status = 500 then "Server error. Please try again later."
      else "An unexpected error occurred. Please try again."

/-- Characterization of `validateUsername` acceptance: length at least 3
and only letters, digits, underscores and hyphens. -/
theorem validateUsername_accepts_iff (u : String) :
    validateUsername u = "" ↔
      (3 ≤ u.length ∧ ∀ c ∈ u.toList, isUsernameChar c = true) := by
  unfold validateUsername
  by_cases h0 : u = ""
  · subst h0
    rw [if_pos rfl]
    exact iff_of_false (by decide) (fun h => absurd h.1 (by decide))
  · rw [if_neg h0]
    by_cases h3 : u.length < 3
    · have h3' : ¬3 ≤ u.length := by omega
      rw [if_pos h3]
      exact iff_of_false (by decide) (fun h => h3' h.1)
    · have h3' : 3 ≤ u.length := by omega
      rw [if_neg h3]
      by_cases hall : u.toList.all isUsernameChar = true
      · rw [if_neg (by rw [hall]; decide)]
        exact iff_of_true rfl ⟨h3', List.all_eq_true.mp hall⟩
      · have hall' : u.toList.all isUsernameChar = false := Bool.eq_false_iff.mpr hall
        rw [if_pos (by rw [hall']; decide)]
        exact iff_of_false (by decide)
          (fun h => hall (List.all_eq_true.mpr h.2))

/-- Characterization of `validatePassword` acceptance: length at least 8
and at least one uppercase letter, one lowercase letter and one digit. -/
theorem validatePassword_accepts_iff (p : String) :
    validatePassword p = "" ↔
      (8 ≤ p.length ∧ (∃ c ∈ p.toList, c.isUpper = true) ∧
       (∃ c ∈ p.toList, c.isLower = true) ∧ (∃ c ∈ p.toList, c.isDigit = true)) := by
  unfold validatePassword
  by_cases h0 : p = ""
  · subst h0
    rw [if_pos rfl]
    exact iff_of_false (by decide) (fun h => absurd h.1 (by decide))
  · rw [if_neg h0]
    by_cases h8 : p.length < 8
    · have h8' : ¬8 ≤ p.length := by omega
      rw [if_pos h8]
      exact iff_of_false (by decide) (fun h => h8' h.1)
    · have h8' : 8 ≤ p.length := by omega
      rw [if_neg h8]
      by_cases hU : p.toList.any Char.isUpper = true
      · rw [if_neg (by rw [hU]; decide)]
        by_cases hL : p.toList.any Char.isLower = true
        · rw [if_neg (by rw [hL]; decide)]
          by_cases hD : p.toList.any Char.isDigit = true
          · rw [if_neg (by rw [hD]; decide)]
            exact iff_of_true rfl
              ⟨h8', List.any_eq_true.mp hU, List.any_eq_true.mp hL,
               List.any_eq_true.mp hD⟩
          · have hD' : p.toList.any Char.isDigit = false := Bool.eq_false_iff.mpr hD
            rw [if_pos (by rw [hD']; decide)]
            exact iff_of_false (by decide)
              (fun h => hD (List.any_eq_true.mpr h.2.2.2))
        · have hL' : p.toList.any Char.isLower = false := Bool.eq_false_iff.mpr hL
          rw [if_pos (by rw [hL']; decide)]
          exact iff_of_false (by decide)
            (fun h => hL (List.any_eq_true.mpr h.2.2.1))
      · have hU' : p.toList.any Char.isUpper = false := Bool.eq_false_iff.mpr hU
        rw [if_pos (by rw [hU']; decide)]
        exact iff_of_false (by decide)
          (fun h => hU (List.any_eq_true.mpr h.2.1))

/-- C6: the client accepts a password exactly when it has length ≥ 8 with
an uppercase letter, a lowercase letter and a digit, and a username
exactly when it has length ≥ 3 and consists only of letters, digits,
underscores and hyphens; a login or registration submission with a
failing field is rejected before any request is sent; and
`alice` / `Abcdef12` are accepted. -/
theorem c6_format_rules :
    (∀ u, validateUsername u = "" ↔
      (3 ≤ u.length ∧ ∀ c ∈ u.toList, isUsernameChar c = true)) ∧
    (∀ p, validatePassword p = "" ↔
      (8 ≤ p.length ∧ (∃ c ∈ p.toList, c.isUpper = true) ∧
       (∃ c ∈ p.toList, c.isLower = true) ∧ (∃ c ∈ p.toList, c.isDigit = true))) ∧
    (∀ u p, loginHandleSubmit u p = SubmitAction.sendLogin u p ↔
      (validateUsername u = "" ∧ validatePassword p = "")) ∧
    (∀ u p c, registerHandleSubmit u p c = SubmitAction.sendRegister u p →
      validateUsername u = "" ∧ validatePassword p = "") ∧
    validateUsername "alice" = "" ∧ validatePassword "Abcdef12" = "" := by
  refine ⟨validateUsername_accepts_iff, validatePassword_accepts_iff, ?_, ?_, by decide, by decide⟩
  · intro u p
    by_cases hu : validateUsername u = ""
    · by_cases hp : validatePassword p = ""
      · simp [loginHandleSubmit, hu, hp]
      · simp [loginHandleSubmit, hu, hp]
    · simp [loginHandleSubmit, hu]
  · intro u p c hsend
    by_cases hu : validateUsername u = ""
    · by_cases hp : validatePassword p = ""
      · exact ⟨hu, hp⟩
      · simp [registerHandleSubmit, hu, hp] at hsend
    · simp [registerHandleSubmit, hu] at hsend

/-- Witness for C6: the implicational conjuncts instantiated at the
end-to-end credentials of the spec. -/
theorem c6_format_rules_witness :
    (loginHandleSubmit "alice" "Abcdef12" = SubmitAction.sendLogin "alice" "Abcdef12" ↔
      (validateUsername "alice" = "" ∧ validatePassword "Abcdef12" = "")) ∧
    (registerHandleSubmit "alice" "Abcdef12" "Abcdef12"
        = SubmitAction.sendRegister "alice" "Abcdef12" →
      validateUsername "alice" = "" ∧ validatePassword "Abcdef12" = "") ∧
    (3 ≤ "alice".length ∧ ∀ c ∈ "alice".toList, isUsernameChar c = true) :=
  ⟨c6_format_rules.2.2.1 "alice" "Abcdef12",
   c6_format_rules.2.2.2.1 "alice" "Abcdef12" "Abcdef12",
   (c6_format_rules.1 "alice").mp (by decide)⟩

/-- C3: every login failure with HTTP status 401 displays the same
constant string "Incorrect username or password"; two runs that differ
only in which credential was wrong (and hence in the error body) produce
identical user-visible error output. -/
theorem c3_uniform_401_message (e1 e2 : ApiError) (r1 r2 : ErrResponse)
    (h1 : e1.response = some r1) (h2 : e2.response = some r2)
    (hs1 : r1.status = 401) (hs2 : r2.status = 401) :
    loginErrorMessage e1 = "Incorrect username or password" ∧
    loginErrorMessage e1 = loginErrorMessage e2 := by
  simp [loginErrorMessage, h1, h2, hs1, hs2]

/-- Witness for C3 at two concrete 401 errors whose bodies differ (the
server knowing the username was wrong vs the password being wrong). -/
theorem c3_uniform_401_message_witness :
    loginErrorMessage ⟨some ⟨401, ⟨Detail.str "no such user"⟩⟩, true, "Request failed"⟩
      = "Incorrect username or password" ∧
    loginErrorMessage ⟨some ⟨401, ⟨Detail.str "no such user"⟩⟩, true, "Request failed"⟩
      = loginErrorMessage ⟨some ⟨401, ⟨Detail.str "bad password"⟩⟩, true, "Request failed"⟩ :=
  c3_uniform_401_message _ _ ⟨401, ⟨Detail.str "no such user"⟩⟩
    ⟨401, ⟨Detail.str "bad password"⟩⟩ rfl rfl rfl rfl

/-- C7: `logout` removes exactly the `'token'` entry from localStorage and
sets the user state to null; the request list is untouched (no network
call), and every other storage key is unchanged. -/
theorem c7_logout_frame (st : ClientState) :
    (logout st).requests = st.requests ∧
    (logout st).user = none ∧
    getItem (logout st).storage "token" = none ∧
    ∀ k, k ≠ "token" → getItem (logout st).storage k = getItem st.storage k :=
  ⟨rfl, rfl, getItem_removeItem_self _ _,
   fun _ hk => getItem_removeItem_other _ _ _ hk⟩

/-- Witness for C7 at a concrete state holding a token and another key. -/
theorem c7_logout_frame_witness :
    (logout ⟨[("token", "abc"), ("theme", "dark")], some ⟨"abc"⟩, []⟩).requests = [] ∧
    (logout ⟨[("token", "abc"), ("theme", "dark")], some ⟨"abc"⟩, []⟩).user = none ∧
    getItem (logout ⟨[("token", "abc"), ("theme", "dark")], some ⟨"abc"⟩, []⟩).storage "token"
      = none ∧
    getItem (logout ⟨[("token", "abc"), ("theme", "dark")], some ⟨"abc"⟩, []⟩).storage "theme"
      = getItem [("token", "abc"), ("theme", "dark")] "theme" := by
  have h := c7_logout_frame ⟨[("token", "abc"), ("theme", "dark")], some ⟨"abc"⟩, []⟩
  exact ⟨h.1, h.2.1, h.2.2.1, h.2.2.2 "theme" (by decide)⟩

/-- C8 counterexample: with the empty string stored under `'token'` — a
string stored in localStorage — the mount effect leaves the user null
(JS truthiness) and ProtectedRoute redirects to /login instead of
rendering the protected content. -/
theorem c8_counterexample :
    getItem [("token", "")] "token" = some "" ∧
    mountUser [("token", "")] = none ∧
    protectedRoute false (mountUser [("token", "")]) = RouteView.redirectLogin := by
  decide

/-- C8 (amended): on mount, if any non-empty string is stored under
`'token'`, the client sets an authenticated user holding exactly that
token with no backend verification, and ProtectedRoute (once loading is
done) renders the protected content. -/
theorem c8_amended_mount_trusts_token (s : Storage) (t : String)
    (h : getItem s "token" = some t) (hne : t ≠ "") :
    mountUser s = some ⟨t⟩ ∧
    protectedRoute false (mountUser s) = RouteView.content := by
  simp [mountUser, h, hne, protectedRoute]

/-- Witness for C8 at a concrete forged token. -/
theorem c8_amended_mount_trusts_token_witness :
    mountUser [("token", "forged")] = some ⟨"forged"⟩ ∧
    protectedRoute false (mountUser [("token", "forged")]) = RouteView.content :=
  c8_amended_mount_trusts_token [("token", "forged")] "forged" rfl (by decide)

/-- C9: a 401 error response removes the stored token (other keys
untouched), redirects the browser to /login, and is still rejected to the
caller unchanged; any non-401 error leaves storage unchanged, does not
redirect, and is rejected unchanged. -/
theorem c9_response_error_handling (s : Storage) (e : ApiError) :
    (e.response.map (·.status) = some 401 →
      getItem (responseErrorChain s e).storage "token" = none ∧
      (∀ k, k ≠ "token" →
        getItem (responseErrorChain s e).storage k = getItem s k) ∧
      (responseErrorChain s e).redirect = some "/login" ∧
      (responseErrorChain s e).result = Except.error e) ∧
    (e.response.map (·.status) ≠ some 401 →
      (responseErrorChain s e).storage = s ∧
      (responseErrorChain s e).redirect = none ∧
      (responseErrorChain s e).result = Except.error e) := by
  constructor
  · intro h
    refine ⟨?_, ?_, ?_, ?_⟩
    · simp only [responseErrorChain, handle401, h, eq_self_iff_true, if_true]
      exact getItem_removeItem_self _ _
    · intro k hk
      simp only [responseErrorChain, handle401, h, eq_self_iff_true, if_true]
      rw [getItem_removeItem_other _ _ _ hk, getItem_removeItem_other _ _ _ hk]
    · simp [responseErrorChain, handle401, h]
    · simp [responseErrorChain]
  · intro h
    refine ⟨?_, ?_, ?_⟩
    · simp [responseErrorChain, handle401, h]
    · simp [responseErrorChain, handle401, h]
    · simp [responseErrorChain]

/-- Witness for C9: a concrete 401 error clears the token and redirects;
a concrete 500 error leaves the token in place. -/
theorem c9_response_error_handling_witness :
    (getItem (responseErrorChain [("token", "abc")]
        ⟨some ⟨401, ⟨Detail.absent⟩⟩, true, "Unauthorized"⟩).storage "token" = none ∧
      (responseErrorChain [("token", "abc")]
        ⟨some ⟨401, ⟨Detail.absent⟩⟩, true, "Unauthorized"⟩).redirect = some "/login") ∧
    (responseErrorChain [("token", "abc")]
        ⟨some ⟨500, ⟨Detail.absent⟩⟩, true, "Server error"⟩).storage = [("token", "abc")] := by
  have h1 := (c9_response_error_handling [("token", "abc")]
    ⟨some ⟨401, ⟨Detail.absent⟩⟩, true, "Unauthorized"⟩).1 (by decide)
  have h2 := (c9_response_error_handling [("token", "abc")]
    ⟨some ⟨500, ⟨Detail.absent⟩⟩, true, "Server error"⟩).2 (by decide)
  exact ⟨⟨h1.1, h1.2.2.1⟩, h2.1⟩

/-- C1: refuted by execution — `AuthContext.login` prints every FormData
entry, so the console output of `login("alice", "Abcdef12")` contains the
plaintext password line `password: Abcdef12`, contradicting the spec
invariant that a plaintext password is never logged. -/
theorem c1_plaintext_password_is_logged :
    LogItem.line "password: Abcdef12" ∈
      (login ⟨[], none, []⟩ "alice" "Abcdef12"
        (Except.ok ⟨200, some ⟨some "tok123"⟩⟩)).log := by
  decide

/-- C2: with a non-empty token stored, every request through the client
logs a headers entry that contains `Authorization: Bearer <token>` (the
auth-only interceptor runs before the logging one) together with the
request data, and every fulfilled response has its full body logged —
including the `access_token` body of a login response. -/
theorem c2_interceptors_log_bodies_and_tokens (s : Storage) (cfg : RequestConfig)
    (t : String) (resp : Response)
    (h : getItem s "token" = some t) (hne : t ≠ "") :
    (∃ hs, LogItem.reqHeaders hs ∈ (runRequestInterceptors s cfg).2 ∧
      ("Authorization", "Bearer " ++ t) ∈ hs) ∧
    (∀ x ∈ dataLogEntries cfg.data, x ∈ (runRequestInterceptors s cfg).2) ∧
    LogItem.respData resp.data ∈ responseSuccessLog resp := by
  have htr : jsTruthy (some t) = true := by
    simpa [jsTruthy] using hne
  refine ⟨⟨setHeader cfg.headers "Authorization" ("Bearer " ++ t), ?_, ?_⟩, ?_, ?_⟩
  · simp [runRequestInterceptors, loggingRequestInterceptor, authRequestInterceptor,
      addAuthHeader, htr, h]
  · simp [setHeader]
  · intro x hx
    simp only [runRequestInterceptors, loggingRequestInterceptor,
      authRequestInterceptor, addAuthHeader, htr, h, if_true]
    simp [hx]
  · simp [responseSuccessLog]

/-- Witness for C2 at a concrete stored token, request and response. -/
theorem c2_interceptors_log_bodies_and_tokens_witness :
    (∃ hs, LogItem.reqHeaders hs ∈
        (runRequestInterceptors [("token", "abc")] (loginRequestConfig "alice" "Abcdef12")).2 ∧
      ("Authorization", "Bearer " ++ "abc") ∈ hs) ∧
    (∀ x ∈ dataLogEntries (loginRequestConfig "alice" "Abcdef12").data,
      x ∈ (runRequestInterceptors [("token", "abc")] (loginRequestConfig "alice" "Abcdef12")).2) ∧
    LogItem.respData (Response.mk 200 (some ⟨some "abc"⟩)).data ∈
      responseSuccessLog (Response.mk 200 (some ⟨some "abc"⟩)) :=
  c2_interceptors_log_bodies_and_tokens [("token", "abc")]
    (loginRequestConfig "alice" "Abcdef12") "abc" (Response.mk 200 (some ⟨some "abc"⟩))
    rfl (by decide)

/-- C4: a fulfilled login response yields `true` exactly when its body
has a non-empty `access_token`; on success that token is stored under
`'token'` and placed in the user state; when the body or the field is
absent, login throws `invalidFormat` and neither storage nor user state
changes. -/
theorem c4_login_success_iff (st : ClientState) (u p : String) (resp : Response) :
    ((login st u p (Except.ok resp)).result = Except.ok true ↔
      ∃ d t, resp.data = some d ∧ d.access_token = some t ∧ t ≠ "") ∧
    (∀ d t, resp.data = some d → d.access_token = some t → t ≠ "" →
      getItem (login st u p (Except.ok resp)).state.storage "token" = some t ∧
      (login st u p (Except.ok resp)).state.user = some ⟨t⟩ ∧
      (login st u p (Except.ok resp)).result = Except.ok true) ∧
    ((resp.data = none ∨ ∃ d, resp.data = some d ∧ d.access_token = none) →
      (login st u p (Except.ok resp)).result = Except.error ClientError.invalidFormat ∧
      (login st u p (Except.ok resp)).state.storage = st.storage ∧
      (login st u p (Except.ok resp)).state.user = st.user) := by
  obtain ⟨status, data⟩ := resp
  refine ⟨?_, ?_, ?_⟩
  · match data with
    | none => simp [login]
    | some ⟨none⟩ => simp [login]
    | some ⟨some tok⟩ =>
        by_cases hemp : tok = ""
        · subst hemp; simp [login]
        · simp [login, hemp]
  · rintro d t hd ht hne
    subst hd
    obtain ⟨ht'⟩ := d
    cases ht
    simp [login, hne, getItem_setItem_self]
  · rintro (hd | ⟨d, hd, ht⟩)
    · subst hd; simp [login]
    · subst hd
      obtain ⟨ht'⟩ := d
      cases ht
      simp [login]

/-- Witness for C4: success at a concrete response with a token, failure
at a concrete response without one. -/
theorem c4_login_success_iff_witness :
    (getItem (login ⟨[], none, []⟩ "alice" "Abcdef12"
        (Except.ok ⟨200, some ⟨some "tok123"⟩⟩)).state.storage "token" = some "tok123" ∧
      (login ⟨[], none, []⟩ "alice" "Abcdef12"
        (Except.ok ⟨200, some ⟨some "tok123"⟩⟩)).state.user = some ⟨"tok123"⟩ ∧
      (login ⟨[], none, []⟩ "alice" "Abcdef12"
        (Except.ok ⟨200, some ⟨some "tok123"⟩⟩)).result = Except.ok true) ∧
    ((login ⟨[], none, []⟩ "alice" "Abcdef12"
        (Except.ok ⟨200, none⟩)).result = Except.error ClientError.invalidFormat ∧
      (login ⟨[], none, []⟩ "alice" "Abcdef12"
        (Except.ok ⟨200, none⟩)).state.storage = [] ∧
      (login ⟨[], none, []⟩ "alice" "Abcdef12"
        (Except.ok ⟨200, none⟩)).state.user = none) :=
  ⟨(c4_login_success_iff ⟨[], none, []⟩ "alice" "Abcdef12" ⟨200, some ⟨some "tok123"⟩⟩).2.1
      ⟨some "tok123"⟩ "tok123" rfl rfl (by decide),
   (c4_login_success_iff ⟨[], none, []⟩ "alice" "Abcdef12" ⟨200, none⟩).2.2 (Or.inl rfl)⟩

/-- C5 counterexample: with the empty string stored under `'token'` — a
token string stored in localStorage — the interceptor chain leaves the
config unchanged and attaches no Authorization header. -/
theorem c5_counterexample :
    getItem [("token", "")] "token" = some "" ∧
    (runRequestInterceptors [("token", "")] (loginRequestConfig "alice" "Abcdef12")).1
      = loginRequestConfig "alice" "Abcdef12" ∧
    getHeader (loginRequestConfig "alice" "Abcdef12").headers "Authorization" = none := by
  decide

/-- C5 (amended): if a non-empty token string is stored under `'token'`,
every request leaves the interceptor chain with header
`Authorization: Bearer <token>`; if no stored token is truthy (absent or
empty), the chain returns the config unchanged, so no Authorization
header is added. -/
theorem c5_amended_bearer_header (s : Storage) (cfg : RequestConfig) :
    (∀ t, getItem s "token" = some t → t ≠ "" →
      getHeader (runRequestInterceptors s cfg).1.headers "Authorization"
        = some ("Bearer " ++ t)) ∧
    (jsTruthy (getItem s "token") = false →
      (runRequestInterceptors s cfg).1 = cfg) := by
  constructor
  · intro t h hne
    have htr : jsTruthy (some t) = true := by
      simpa [jsTruthy] using hne
    simp [runRequestInterceptors, loggingRequestInterceptor, authRequestInterceptor,
      addAuthHeader, htr, h, getHeader_setHeader_self]
  · intro hf
    simp [runRequestInterceptors, loggingRequestInterceptor, authRequestInterceptor,
      addAuthHeader, hf]

/-- Witness for C5 (amended): a stored token `abc` produces the bearer
header; an empty localStorage leaves the config unchanged. -/
theorem c5_amended_bearer_header_witness :
    getHeader (runRequestInterceptors [("token", "abc")]
        (loginRequestConfig "alice" "Abcdef12")).1.headers "Authorization"
      = some ("Bearer " ++ "abc") ∧
    (runRequestInterceptors [] (loginRequestConfig "alice" "Abcdef12")).1
      = loginRequestConfig "alice" "Abcdef12" :=
  ⟨(c5_amended_bearer_header [("token", "abc")] (loginRequestConfig "alice" "Abcdef12")).1
      "abc" rfl (by decide),
   (c5_amended_bearer_header [] (loginRequestConfig "alice" "Abcdef12")).2 rfl⟩

/-- C10: `register` with a failed registration POST propagates that error
and never calls `login`; with a fulfilled registration response it calls
`login` with the same credentials and returns exactly login's result and
state. -/
theorem c10_register_then_login (st : ClientState) (u p : String)
    (regO loginO : Except ApiError Response) :
    (∀ e, regO = Except.error e →
      (register st u p regO loginO).result = Except.error (ClientError.api e) ∧
      (register st u p regO loginO).loginAttempted = false) ∧
    (∀ r, regO = Except.ok r →
      (register st u p regO loginO).loginAttempted = true ∧
      (register st u p regO loginO).result
        = (login { st with requests := st.requests ++ ["/register"] } u p loginO).result ∧
      (register st u p regO loginO).state
        = (login { st with requests := st.requests ++ ["/register"] } u p loginO).state) := by
  constructor
  · rintro e rfl
    exact ⟨rfl, rfl⟩
  · rintro r rfl
    exact ⟨rfl, rfl, rfl⟩

/-- Witness for C10 at a concrete failed registration and a concrete
successful registration+login. -/
theorem c10_register_then_login_witness :
    ((register ⟨[], none, []⟩ "alice" "Abcdef12"
        (Except.error ⟨some ⟨400, ⟨Detail.str "Username already exists"⟩⟩, true, "dup"⟩)
        (Except.ok ⟨200, some ⟨some "tok123"⟩⟩)).result
      = Except.error (ClientError.api
          ⟨some ⟨400, ⟨Detail.str "Username already exists"⟩⟩, true, "dup"⟩) ∧
     (register ⟨[], none, []⟩ "alice" "Abcdef12"
        (Except.error ⟨some ⟨400, ⟨Detail.str "Username already exists"⟩⟩, true, "dup"⟩)
        (Except.ok ⟨200, some ⟨some "tok123"⟩⟩)).loginAttempted = false) ∧
    ((register ⟨[], none, []⟩ "alice" "Abcdef12"
        (Except.ok ⟨200, none⟩) (Except.ok ⟨200, some ⟨some "tok123"⟩⟩)).loginAttempted = true ∧
     (register ⟨[], none, []⟩ "alice" "Abcdef12"
        (Except.ok ⟨200, none⟩) (Except.ok ⟨200, some ⟨some "tok123"⟩⟩)).result
       = (login ⟨[], none, ["/register"]⟩ "alice" "Abcdef12"
            (Except.ok ⟨200, some ⟨some "tok123"⟩⟩)).result ∧
     (register ⟨[], none, []⟩ "alice" "Abcdef12"
        (Except.ok ⟨200, none⟩) (Except.ok ⟨200, some ⟨some "tok123"⟩⟩)).state
       = (login ⟨[], none, ["/register"]⟩ "alice" "Abcdef12"
            (Except.ok ⟨200, some ⟨some "tok123"⟩⟩)).state) :=
  ⟨(c10_register_then_login ⟨[], none, []⟩ "alice" "Abcdef12"
      (Except.error ⟨some ⟨400, ⟨Detail.str "Username already exists"⟩⟩, true, "dup"⟩)
      (Except.ok ⟨200, some ⟨some "tok123"⟩⟩)).1
      ⟨some ⟨400, ⟨Detail.str "Username already exists"⟩⟩, true, "dup"⟩ rfl,
   (c10_register_then_login ⟨[], none, []⟩ "alice" "Abcdef12"
      (Except.ok ⟨200, none⟩) (Except.ok ⟨200, some ⟨some "tok123"⟩⟩)).2
      ⟨200, none⟩ rfl⟩

end TaskManager




